import Mathlib

/-!
Verification of the rotor-RPM acquisition subsystem
(`src/main/sensors/esc_sensor.c` and `src/main/flight/motors.c`).

The C code is shallowly embedded: machine integers are modelled as `Nat`
(resp. `Int` for signed fields) with explicit truncation (`% 2 ^ w`) where
the code can overflow; module-level static state is gathered into explicit
state structures that every function threads; byte buffers written through
an index (`hwData[bytesRead++] = b`) are modelled as functions `Nat → Nat`
updated pointwise.

Constants `ESC_DATA_INVALID` and `ESC_SENSOR_COMBINED` and the field types of
`escSensorData_t` come from `sensors/esc_sensor.h`, which is not among the
shown sources; they are modelled from the spec (§3: `dataAgeTicks: u8`
saturating at an `INVALID` sentinel; a `COMBINED` sentinel index; signed
32-bit value fields).  The `DEBUG_SET`/`DEBUG` macros come from
`build/debug.h`, also not shown; their value argument (which the code uses
to increment the timeout and CRC-error counters) is modelled from the spec
as always evaluated (§3 `KissSchedulerState`: cumulative `timeoutCount`,
`crcErrorCount`).
-/

/-- `#define ESC_BOOTTIME 5000` (ms). -/
def ESC_BOOTTIME : Nat := 5000

/-- `#define ESC_REQUEST_TIMEOUT 100` (ms). -/
def ESC_REQUEST_TIMEOUT : Nat := 100

/-- `#define TELEMETRY_FRAME_SIZE 10`. -/
def TELEMETRY_FRAME_SIZE : Nat := 10

/-- Modelled from the spec: the saturating ceiling of the `u8` field
`dataAgeTicks` (`ESC_DATA_INVALID` in `sensors/esc_sensor.h`, not among the
shown sources; the ceiling of a `u8` counter is 255). -/
def ESC_DATA_INVALID : Nat := 255

/-- Modelled from the spec: the sentinel motor index selecting the combined
record (`ESC_SENSOR_COMBINED` in `sensors/esc_sensor.h`, not among the shown
sources; a `u8` sentinel distinct from every real motor index). -/
def ESC_SENSOR_COMBINED : Nat := 255

/-- `escSensorData_t`: one telemetry record (spec §3 `MotorTelemetry`).
`dataAge` is a `u8` tick counter; the value fields are signed integers
(widths per spec §3); `rpm` only ever holds non-negative protocol values. -/
structure escSensorData_t where
  dataAge : Nat
  temperature : Int
  voltage : Int
  current : Int
  consumption : Int
  rpm : Nat
deriving DecidableEq, Repr

/-- The all-zero record: static storage is zero-initialised in C. -/
def zeroEscSensorData : escSensorData_t :=
  { dataAge := 0, temperature := 0, voltage := 0, current := 0,
    consumption := 0, rpm := 0 }

/-- `escTlmFrameState_t`. -/
inductive escTlmFrameState_t where
  | ESC_SENSOR_FRAME_PENDING
  | ESC_SENSOR_FRAME_COMPLETE
  | ESC_SENSOR_FRAME_FAILED
deriving DecidableEq, Repr

/-- `escSensorTriggerState_t`. -/
inductive escSensorTriggerState_t where
  | ESC_SENSOR_TRIGGER_STARTUP
  | ESC_SENSOR_TRIGGER_PENDING
deriving DecidableEq, Repr

/-- Reading `Buf[i]` from a byte list (out-of-range reads do not occur on the
paths proved below; `getD` totalises them as 0). -/
def byteAt (buf : List Nat) (i : Nat) : Nat := buf.getD i 0

/-- `updateCrc8(crc, crc_seed)`: XOR then eight rounds of
`crc_u = (crc_u & 0x80) ? 0x7 ^ (crc_u << 1) : (crc_u << 1)` on a `uint8_t`
(the assignment truncates to 8 bits). -/
def updateCrc8 (crc crc_seed : Nat) : Nat :=
  (List.range 8).foldl
    (fun crc_u _ =>
      if crc_u &&& 0x80 ≠ 0 then (0x7 ^^^ (crc_u <<< 1)) % 256
      else (crc_u <<< 1) % 256)
    (crc ^^^ crc_seed)

/-- `calculateCrc8(Buf, BufLen)`: fold `updateCrc8(Buf[i], crc)` over
`i < BufLen`, seed 0. -/
def calculateCrc8 (Buf : List Nat) (BufLen : Nat) : Nat :=
  (List.range BufLen).foldl (fun crc i => updateCrc8 (byteAt Buf i) crc) 0

/-- The module-level static state of the KISS path of `esc_sensor.c`:
the receive buffer (`telemetryBuffer` contents plus the
`bufferPosition`/`bufferSize` cursor armed by `startEscDataRead`), the
per-motor store `escSensorData[]`, the trigger state machine, and the
counters.  `reqLog` is ghost instrumentation: `setRequest` signals the
external ESC driver (`requestTelemetry(motorIndex)` in the spec §6 motor
driver contract); `reqLog` records the motor index of each such request so
that theorems can speak about the requests issued. -/
@[ext]
structure KissState where
  telemetryBuffer : List Nat
  bufferPosition : Nat
  bufferSize : Nat
  escSensorData : Nat → escSensorData_t
  escSensorTriggerState : escSensorTriggerState_t
  escTriggerTimestamp : Nat
  escSensorMotor : Nat
  combinedDataNeedsUpdate : Bool
  totalTimeoutCount : Nat
  totalCrcErrorCount : Nat
  reqLog : List Nat

/-- `isFrameComplete()`: `bufferPosition == bufferSize`. -/
def isFrameComplete (s : KissState) : Bool :=
  s.bufferPosition == s.bufferSize

/-- `decodeEscFrame()`: returns the frame status and the mutated state.
On CRC match it writes the current motor's record (big-endian field
extraction exactly as the source), resets its age, and marks the combined
aggregate dirty; on mismatch or an incomplete buffer it mutates nothing. -/
def decodeEscFrame (s : KissState) : escTlmFrameState_t × KissState :=
  if ¬ isFrameComplete s then
    (.ESC_SENSOR_FRAME_PENDING, s)
  else
    let chksum := calculateCrc8 s.telemetryBuffer (TELEMETRY_FRAME_SIZE - 1)
    let tlmsum := byteAt s.telemetryBuffer (TELEMETRY_FRAME_SIZE - 1)
    if chksum = tlmsum then
      let rec0 : escSensorData_t :=
        { dataAge := 0
          temperature := (byteAt s.telemetryBuffer 0 : Int)
          voltage := ((byteAt s.telemetryBuffer 1 <<< 8 ||| byteAt s.telemetryBuffer 2 : Nat) : Int)
          current := ((byteAt s.telemetryBuffer 3 <<< 8 ||| byteAt s.telemetryBuffer 4 : Nat) : Int)
          consumption := ((byteAt s.telemetryBuffer 5 <<< 8 ||| byteAt s.telemetryBuffer 6 : Nat) : Int)
          rpm := byteAt s.telemetryBuffer 7 <<< 8 ||| byteAt s.telemetryBuffer 8 }
      (.ESC_SENSOR_FRAME_COMPLETE,
        { s with
            escSensorData := fun j => if j = s.escSensorMotor then rec0 else s.escSensorData j
            combinedDataNeedsUpdate := true })
    else
      (.ESC_SENSOR_FRAME_FAILED, s)

/-- `increaseDataAge()`: saturating bump of the current motor's age; the
combined aggregate is marked dirty only when the age actually changed. -/
def increaseDataAge (s : KissState) : KissState :=
  let r := s.escSensorData s.escSensorMotor
  if r.dataAge < ESC_DATA_INVALID then
    { s with
        escSensorData := fun j =>
          if j = s.escSensorMotor then { r with dataAge := r.dataAge + 1 }
          else s.escSensorData j
        combinedDataNeedsUpdate := true }
  else s

/-- `selectNextMotor()`: increment, wrapping at `getMotorCount()` (passed as
`N`). -/
def selectNextMotor (N : Nat) (s : KissState) : KissState :=
  let m := s.escSensorMotor + 1
  { s with escSensorMotor := if m = N then 0 else m }

/-- `setRequest(currentTimeMs)`: re-arm the receive buffer
(`startEscDataRead(telemetryBuffer, TELEMETRY_FRAME_SIZE)`), signal the ESC
driver to request telemetry from the current motor (recorded in the ghost
`reqLog`), enter `PENDING`, and stamp the request time. -/
def setRequest (currentTimeMs : Nat) (s : KissState) : KissState :=
  { s with
      bufferPosition := 0
      bufferSize := TELEMETRY_FRAME_SIZE
      reqLog := s.reqLog ++ [s.escSensorMotor]
      escSensorTriggerState := .ESC_SENSOR_TRIGGER_PENDING
      escTriggerTimestamp := currentTimeMs }

/-- `kissSensorProcess(currentTimeUs)` for a tick during which no bytes
arrive on the serial line (the receive callback `escSensorDataReceive` is
never invoked, so `bufferPosition` is untouched between ticks). -/
def kissSensorProcess (N : Nat) (currentTimeUs : Nat) (s : KissState) : KissState :=
  let currentTimeMs := currentTimeUs / 1000
  match s.escSensorTriggerState with
  | .ESC_SENSOR_TRIGGER_STARTUP =>
      if currentTimeMs ≥ ESC_BOOTTIME then setRequest currentTimeMs s else s
  | .ESC_SENSOR_TRIGGER_PENDING =>
      if currentTimeMs < s.escTriggerTimestamp + ESC_REQUEST_TIMEOUT then
        match decodeEscFrame s with
        | (.ESC_SENSOR_FRAME_COMPLETE, s') =>
            setRequest currentTimeMs (selectNextMotor N s')
        | (.ESC_SENSOR_FRAME_FAILED, s') =>
            let s'' := setRequest currentTimeMs (selectNextMotor N (increaseDataAge s'))
            { s'' with totalCrcErrorCount := s''.totalCrcErrorCount + 1 }
        | (.ESC_SENSOR_FRAME_PENDING, s') => s'
      else
        let s'' := setRequest currentTimeMs (selectNextMotor N (increaseDataAge s))
        { s'' with totalTimeoutCount := s''.totalTimeoutCount + 1 }

/-- The KISS state right after `escSensorInit` in KISS mode: zeroed statics,
every record's age forced to `ESC_DATA_INVALID` (generalised here to an
arbitrary initial age assignment `a`, instantiated with
`fun i => ESC_DATA_INVALID` for the literal post-init state),
`combinedDataNeedsUpdate = true`, empty request log. -/
def kissInitState (a : Nat → Nat) : KissState :=
  { telemetryBuffer := List.replicate TELEMETRY_FRAME_SIZE 0
    bufferPosition := 0
    bufferSize := 0
    escSensorData := fun i => { zeroEscSensorData with dataAge := a i }
    escSensorTriggerState := .ESC_SENSOR_TRIGGER_STARTUP
    escTriggerTimestamp := 0
    escSensorMotor := 0
    combinedDataNeedsUpdate := true
    totalTimeoutCount := 0
    totalCrcErrorCount := 0
    reqLog := [] }

/-- Scheduler run at a 1 kHz tick (spec §4.2 design target): `kissRun N a t`
is the state after the ticks at `currentTimeUs = 0, 1000, …, (t-1)*1000`,
i.e. after every tick whose millisecond time is `< t`, with no serial bytes
ever arriving. -/
def kissRun (N : Nat) (a : Nat → Nat) : Nat → KissState
  | 0 => kissInitState a
  | t + 1 => kissSensorProcess N (1000 * t) (kissRun N a t)

/-- The HW4 synchronizer statics: `hwData[20]` (modelled pointwise, since
the array outlives buffer resets), `skipBytes`, `bytesRead`. -/
structure Hw4ParserState where
  hwData : Nat → Nat
  skipBytes : Nat
  bytesRead : Nat

/-- `processHW4TelemetryStream(dataByte)`: per-byte resynchronizing parser.
Returns `true` exactly when a 19-byte frame has just been completed (the
frame then sits in `hwData[0..18]` and `bytesRead` has been reset). -/
def processHW4TelemetryStream (dataByte : Nat) (s : Hw4ParserState) :
    Bool × Hw4ParserState :=
  if s.skipBytes > 0 then
    (false, { s with skipBytes := s.skipBytes - 1 })
  else if s.bytesRead = 0 ∧ dataByte = 0x9B then
    (false, { s with
        hwData := fun j => if j = s.bytesRead then dataByte else s.hwData j
        bytesRead := s.bytesRead + 1 })
  else if s.bytesRead = 1 ∧ dataByte = 0x9B then
    (false, { s with bytesRead := 0, skipBytes := 11 })
  else if s.bytesRead > 0 then
    let s' : Hw4ParserState :=
      { s with
          hwData := fun j => if j = s.bytesRead then dataByte else s.hwData j
          bytesRead := s.bytesRead + 1 }
    if s'.bytesRead = 19 then (true, { s' with bytesRead := 0 }) else (false, s')
  else
    (false, s)

/-- Drive `processHW4TelemetryStream` over a list of received bytes (the
`while (serialRxBytesWaiting…) … serialRead` loop of `hw4SensorProcess`),
collecting a snapshot `hwData[0..18]` of every completed frame in order. -/
def runHW4Stream (bytes : List Nat) (s : Hw4ParserState) :
    Hw4ParserState × List (List Nat) :=
  match bytes with
  | [] => (s, [])
  | b :: rest =>
      let r := processHW4TelemetryStream b s
      let rec' := runHW4Stream rest r.2
      (rec'.1, (if r.1 then [(List.range 19).map r.2.hwData] else []) ++ rec'.2)

/-- The seven sanity-byte checks of `hw4SensorProcess` on a complete frame. -/
def hw4SanityOk (frame : List Nat) : Prop :=
  byteAt frame 4 < 4 ∧ byteAt frame 6 < 4 ∧ byteAt frame 8 < 4 ∧
  byteAt frame 11 < 0xF ∧ byteAt frame 13 < 0xF ∧ byteAt frame 15 < 0xF ∧
  byteAt frame 17 < 0xF

instance (frame : List Nat) : Decidable (hw4SanityOk frame) := by
  unfold hw4SanityOk; infer_instance

/-- The unit conversions of the HW4 decoder (`calcVoltHW`, `calcCurrHW`,
`calcTempHW` composed with the `lrintf` roundings of `hw4SensorProcess`).
They are `float` computations (for the temperature even a `logf`), so they
are kept as abstract integer-valued parameters: each maps the raw 16-bit
field to the value the code stores.  Every theorem below holds for all
choices of these functions. -/
structure Hw4Conv where
  volt : Nat → Int
  curr : Nat → Int
  temp : Nat → Int

/-- The decoder-side HW4 state touched by one complete frame: the shared
per-motor store (the HW4 path only ever writes record 0), the CRC-error
counter, and the freshness stamp `dataUpdateUs`. -/
structure Hw4State where
  escSensorData : Nat → escSensorData_t
  totalCrcErrorCount : Nat
  dataUpdateUs : Nat

/-- The body of `hw4SensorProcess` handling one complete 19-byte frame
(lines guarded by `processHW4TelemetryStream(...)` returning true): sanity
checks, big-endian field extraction, conversions, the stale-current
special case (`rpm < 100 || thr < 50` forces current to 0), the write of
record 0, and on failure the CRC-error count.  The consumption field is
not written by the frame handler (it is integrated separately, once per
process call). -/
def hw4ApplyFrame (conv : Hw4Conv) (currentTimeUs : Nat) (frame : List Nat)
    (s : Hw4State) : Hw4State :=
  if hw4SanityOk frame then
    let thr := byteAt frame 4 <<< 8 ||| byteAt frame 5
    let rpm := byteAt frame 8 <<< 16 ||| byteAt frame 9 <<< 8 ||| byteAt frame 10
    let voltage := conv.volt (byteAt frame 11 <<< 8 ||| byteAt frame 12)
    let current := conv.curr (byteAt frame 13 <<< 8 ||| byteAt frame 14)
    let tempFET := conv.temp (byteAt frame 15 <<< 8 ||| byteAt frame 16)
    let rec0 : escSensorData_t :=
      { dataAge := 0
        temperature := tempFET
        voltage := voltage
        current := if rpm < 100 ∨ thr < 50 then 0 else current
        consumption := (s.escSensorData 0).consumption
        rpm := rpm / 100 }
    { s with
        escSensorData := fun j => if j = 0 then rec0 else s.escSensorData j
        dataUpdateUs := currentTimeUs }
  else
    { s with totalCrcErrorCount := s.totalCrcErrorCount + 1 }

/-- `rpmSource_e` from `flight/motors.c`. -/
inductive rpmSource_e where
  | RPM_SRC_NONE
  | RPM_SRC_DSHOT_TELEM
  | RPM_SRC_FREQ_SENSOR
  | RPM_SRC_ESC_SENSOR
deriving DecidableEq, Repr

/-- `isRpmSourceActive()`: scan motors `0.. getMotorCount()-1`, returning
false at the first `RPM_SRC_NONE`. -/
def isRpmSourceActive (motorRpmSource : Nat → rpmSource_e) (motorCount : Nat) : Bool :=
  (List.range motorCount).all fun i =>
    ¬ (motorRpmSource i = rpmSource_e.RPM_SRC_NONE)

/-- `getEscSensorRPM(motorNumber)`: the bare store lookup, truncated to the
declared `uint16_t` return type.  No feature, protocol, bounds or freshness
check appears in the source. -/
def getEscSensorRPM (escSensorData : Nat → escSensorData_t) (motorNumber : Nat) : Nat :=
  (escSensorData motorNumber).rpm % 2 ^ 16

/-- `getMotorERPM(motor)` from `flight/motors.c` with all three sources
compiled in: dispatch on the motor's selected source, defaulting to 0. -/
def getMotorERPM (motorRpmSource : Nat → rpmSource_e)
    (freqSensorRPM dshotTelemetry : Nat → Nat)
    (escSensorData : Nat → escSensorData_t) (motor : Nat) : Nat :=
  match motorRpmSource motor with
  | .RPM_SRC_FREQ_SENSOR => freqSensorRPM motor
  | .RPM_SRC_DSHOT_TELEM => dshotTelemetry motor
  | .RPM_SRC_ESC_SENSOR => getEscSensorRPM escSensorData motor
  | .RPM_SRC_NONE => 0

/-- The per-motor store right after `escSensorInit`: zero-initialised
statics with every `dataAge` forced to `ESC_DATA_INVALID`. -/
def escSensorInitData : Nat → escSensorData_t :=
  fun _ => { zeroEscSensorData with dataAge := ESC_DATA_INVALID }

/-- `escSensorProtocol_e`: the two wire protocols selectable at init. -/
inductive escSensorProtocol_e where
  | ESC_SENSOR_PROTO_KISS
  | ESC_SENSOR_PROTO_HW4
deriving DecidableEq, Repr

/-- The combined-record aggregation loop of `getEscSensorData` (max age and
temperature, summed voltage/current/consumption/rpm, then voltage and rpm
divided by the motor count). -/
def combinedOf (N : Nat) (data : Nat → escSensorData_t) : escSensorData_t :=
  let acc := (List.range N).foldl
    (fun acc i =>
      { dataAge := max acc.dataAge (data i).dataAge
        temperature := max acc.temperature (data i).temperature
        voltage := acc.voltage + (data i).voltage
        current := acc.current + (data i).current
        consumption := acc.consumption + (data i).consumption
        rpm := acc.rpm + (data i).rpm })
    zeroEscSensorData
  { acc with voltage := acc.voltage / N, rpm := acc.rpm / N }

/-- `getEscSensorData(motorNumber)`: returns the selected record (`none`
models a NULL return) together with the updated combined record and dirty
flag.  The HW4 branch returns `escSensorData[0]` for every requested index,
with no bounds check. -/
def getEscSensorData (featureEnabled : Bool) (protocol : escSensorProtocol_e)
    (N : Nat) (data : Nat → escSensorData_t) (combined : escSensorData_t)
    (needsUpdate : Bool) (motorNumber : Nat) :
    Option escSensorData_t × escSensorData_t × Bool :=
  if ¬ featureEnabled then (none, combined, needsUpdate)
  else
    match protocol with
    | .ESC_SENSOR_PROTO_KISS =>
        if motorNumber < N then (some (data motorNumber), combined, needsUpdate)
        else if motorNumber = ESC_SENSOR_COMBINED then
          if needsUpdate ∧ 0 < N then
            let c := combinedOf N data
            (some c, c, false)
          else (some combined, combined, needsUpdate)
        else (none, combined, needsUpdate)
    | .ESC_SENSOR_PROTO_HW4 => (some (data 0), combined, needsUpdate)

/-- An abstract event acting on one motor's `dataAge`: a lost frame bumps it
(the saturating update of `increaseDataAge`), a successfully decoded frame
resets it to 0 (the write of `decodeEscFrame`). -/
inductive AgeEvent where
  | frameLost
  | frameDecoded
deriving DecidableEq, Repr

/-- The action of one `AgeEvent` on an age value; the `frameLost` case is
the saturating update performed by `increaseDataAge`. -/
def applyAgeEvent : Nat → AgeEvent → Nat
  | x, .frameLost => if x < ESC_DATA_INVALID then x + 1 else x
  | _, .frameDecoded => 0

theorem applyAgeEvent_le (x : Nat) (hx : x ≤ ESC_DATA_INVALID) (op : AgeEvent) :
    applyAgeEvent x op ≤ ESC_DATA_INVALID := by
  cases op <;> simp only [applyAgeEvent]
  · split_ifs <;> omega
  · omega

theorem foldl_applyAgeEvent_le (ops : List AgeEvent) (x : Nat)
    (hx : x ≤ ESC_DATA_INVALID) :
    ops.foldl applyAgeEvent x ≤ ESC_DATA_INVALID := by
  induction ops generalizing x with
  | nil => simpa using hx
  | cons op ops ih => exact ih _ (applyAgeEvent_le x hx op)

theorem foldl_applyAgeEvent_lost (ops : List AgeEvent) (x : Nat)
    (hx : x ≤ ESC_DATA_INVALID) (hops : ∀ op ∈ ops, op = AgeEvent.frameLost) :
    ops.foldl applyAgeEvent x = min (x + ops.length) ESC_DATA_INVALID := by
  induction ops generalizing x with
  | nil => simp; omega
  | cons op ops ih =>
      have hop : op = AgeEvent.frameLost := hops op (by simp)
      subst hop
      have h1 := ih (applyAgeEvent x .frameLost)
        (applyAgeEvent_le x hx .frameLost)
        (fun o ho => hops o (by simp [ho]))
      simp only [List.foldl_cons, h1, List.length_cons]
      simp only [applyAgeEvent]
      split_ifs <;> omega

/-- C9: the per-motor `dataAge` is a saturating counter: `increaseDataAge`
increments it by one exactly when it is strictly below `ESC_DATA_INVALID`
and is a no-op once the age has reached the sentinel (never wrapping past
it); across any sequence of bumps and decode-resets the age stays at or
below `ESC_DATA_INVALID`, a run of bumps alone saturates at
`ESC_DATA_INVALID`, and `decodeEscFrame` resets the age to 0 exactly on a
successfully decoded frame (on any other outcome it mutates nothing). -/
theorem dataAge_saturating (s : KissState) (ops : List AgeEvent)
    (h : (s.escSensorData s.escSensorMotor).dataAge ≤ ESC_DATA_INVALID) :
    (((increaseDataAge s).escSensorData s.escSensorMotor).dataAge
        = applyAgeEvent (s.escSensorData s.escSensorMotor).dataAge .frameLost) ∧
    ((s.escSensorData s.escSensorMotor).dataAge < ESC_DATA_INVALID →
      ((increaseDataAge s).escSensorData s.escSensorMotor).dataAge
        = (s.escSensorData s.escSensorMotor).dataAge + 1) ∧
    ((s.escSensorData s.escSensorMotor).dataAge = ESC_DATA_INVALID →
      increaseDataAge s = s) ∧
    (ops.foldl applyAgeEvent (s.escSensorData s.escSensorMotor).dataAge
        ≤ ESC_DATA_INVALID) ∧
    ((∀ op ∈ ops, op = AgeEvent.frameLost) →
      ops.foldl applyAgeEvent (s.escSensorData s.escSensorMotor).dataAge
        = min ((s.escSensorData s.escSensorMotor).dataAge + ops.length)
            ESC_DATA_INVALID) ∧
    (∀ u : KissState, (decodeEscFrame u).1 = .ESC_SENSOR_FRAME_COMPLETE →
      ((decodeEscFrame u).2.escSensorData u.escSensorMotor).dataAge = 0) ∧
    (∀ u : KissState, (decodeEscFrame u).1 ≠ .ESC_SENSOR_FRAME_COMPLETE →
      (decodeEscFrame u).2 = u) := by
  refine ⟨?_, ?_, ?_, ?_, ?_, ?_, ?_⟩
  · by_cases hlt : (s.escSensorData s.escSensorMotor).dataAge < ESC_DATA_INVALID <;>
      simp [increaseDataAge, applyAgeEvent, hlt]
  · intro hlt; simp [increaseDataAge, hlt]
  · intro heq; simp [increaseDataAge, heq]
  · exact foldl_applyAgeEvent_le ops _ h
  · exact foldl_applyAgeEvent_lost ops _ h
  · intro u hu
    by_cases hc : isFrameComplete u = true
    · by_cases hcrc : calculateCrc8 u.telemetryBuffer (TELEMETRY_FRAME_SIZE - 1)
          = byteAt u.telemetryBuffer (TELEMETRY_FRAME_SIZE - 1)
      · simp [decodeEscFrame, hc, hcrc]
      · simp [decodeEscFrame, hc, hcrc] at hu
    · simp [decodeEscFrame, hc] at hu
  · intro u hu
    by_cases hc : isFrameComplete u = true
    · by_cases hcrc : calculateCrc8 u.telemetryBuffer (TELEMETRY_FRAME_SIZE - 1)
          = byteAt u.telemetryBuffer (TELEMETRY_FRAME_SIZE - 1)
      · exact absurd (by simp [decodeEscFrame, hc, hcrc]) hu
      · simp [decodeEscFrame, hc, hcrc]
    · simp [decodeEscFrame, hc]

/-- A concrete post-init KISS state used by witnesses: motor 1 of 3 selected,
its record aged to 250. -/
def exAgedState : KissState :=
  { kissInitState (fun _ => ESC_DATA_INVALID) with
      escSensorMotor := 1
      escSensorData := fun i =>
        if i = 1 then { zeroEscSensorData with dataAge := 250 }
        else { zeroEscSensorData with dataAge := ESC_DATA_INVALID } }

theorem dataAge_saturating_witness :
    ((increaseDataAge exAgedState).escSensorData exAgedState.escSensorMotor).dataAge
      = applyAgeEvent (exAgedState.escSensorData exAgedState.escSensorMotor).dataAge
          AgeEvent.frameLost :=
  (dataAge_saturating exAgedState [AgeEvent.frameLost] (by decide)).1

/-- C7: `isRpmSourceActive()` returns true iff every motor index in
`[0, motorCount)` has a source other than `RPM_SRC_NONE`; equivalently it
returns false exactly when some motor's source is `RPM_SRC_NONE`. -/
theorem isRpmSourceActive_iff (motorRpmSource : Nat → rpmSource_e) (motorCount : Nat) :
    (isRpmSourceActive motorRpmSource motorCount = true ↔
      ∀ i, i < motorCount → motorRpmSource i ≠ rpmSource_e.RPM_SRC_NONE) ∧
    (isRpmSourceActive motorRpmSource motorCount = false ↔
      ∃ i, i < motorCount ∧ motorRpmSource i = rpmSource_e.RPM_SRC_NONE) := by
  constructor
  · simp [isRpmSourceActive, List.all_eq_true, List.mem_range]
  · simp [isRpmSourceActive, List.all_eq_false, List.mem_range]

/-- C10: `getEscSensorRPM` is the bare (uint16) store lookup: it equals the
stored `rpm` field reduced mod `2^16` for every store and index, with no
feature, protocol, bounds or freshness check (in particular it is exactly
the stored field whenever that fits in 16 bits, as every KISS-decoded value
does); the post-init store has every `dataAge` at `ESC_DATA_INVALID` and
still yields its stored rpm (0) — and `getMotorERPM` forwards exactly this
value whenever the motor's arbitrated source is `RPM_SRC_ESC_SENSOR`. -/
theorem getEscSensorRPM_unchecked (escData : Nat → escSensorData_t)
    (freq dshot : Nat → Nat) (motorRpmSource : Nat → rpmSource_e)
    (motorNumber : Nat)
    (hsrc : motorRpmSource motorNumber = rpmSource_e.RPM_SRC_ESC_SENSOR) :
    (getEscSensorRPM escData motorNumber = (escData motorNumber).rpm % 2 ^ 16) ∧
    ((escData motorNumber).rpm < 2 ^ 16 →
      getEscSensorRPM escData motorNumber = (escData motorNumber).rpm) ∧
    ((escSensorInitData motorNumber).dataAge = ESC_DATA_INVALID) ∧
    (getEscSensorRPM escSensorInitData motorNumber = 0) ∧
    (getMotorERPM motorRpmSource freq dshot escData motorNumber
      = getEscSensorRPM escData motorNumber) := by
  refine ⟨rfl, fun hlt => ?_, rfl, rfl, ?_⟩
  · simp only [getEscSensorRPM]
    exact Nat.mod_eq_of_lt hlt
  · simp [getMotorERPM, hsrc]

theorem getEscSensorRPM_unchecked_witness :
    getMotorERPM (fun j => rpmSource_e.RPM_SRC_ESC_SENSOR) (fun j => 0) (fun j => 0)
        escSensorInitData 2
      = getEscSensorRPM escSensorInitData 2 :=
  (getEscSensorRPM_unchecked escSensorInitData (fun j => 0) (fun j => 0)
    (fun j => rpmSource_e.RPM_SRC_ESC_SENSOR) 2 rfl).2.2.2.2

/-- C8 counterexample: with the feature enabled, protocol HW4 and one motor,
the requested index 7 is not HW4's single valid index (0), yet
`getEscSensorData` does not return NULL — it returns record 0, because the
HW4 branch has no index check.  This refutes the claim that NULL is
returned for every index invalid for the active protocol. -/
theorem getEscSensorData_hw4_no_index_check :
    (getEscSensorData true escSensorProtocol_e.ESC_SENSOR_PROTO_HW4 1
        escSensorInitData zeroEscSensorData true 7).1
      = some (escSensorInitData 0) := rfl

/-- C8 (amended): `getEscSensorData` returns NULL exactly when the feature
is disabled, or the protocol is KISS and the index is neither a real motor
index (`< motorCount`) nor the `ESC_SENSOR_COMBINED` sentinel; under HW4
every requested index returns the single record 0, never NULL. -/
theorem getEscSensorData_none_iff (featureEnabled : Bool)
    (protocol : escSensorProtocol_e) (N : Nat) (data : Nat → escSensorData_t)
    (combined : escSensorData_t) (needsUpdate : Bool) (motorNumber : Nat) :
    ((getEscSensorData featureEnabled protocol N data combined needsUpdate
        motorNumber).1 = none
      ↔ (featureEnabled = false ∨
          (protocol = escSensorProtocol_e.ESC_SENSOR_PROTO_KISS ∧
            N ≤ motorNumber ∧ motorNumber ≠ ESC_SENSOR_COMBINED))) ∧
    (featureEnabled = true →
      (getEscSensorData featureEnabled escSensorProtocol_e.ESC_SENSOR_PROTO_HW4 N
          data combined needsUpdate motorNumber).1 = some (data 0)) := by
  constructor
  · cases featureEnabled with
    | false => simp [getEscSensorData]
    | true =>
        cases protocol with
        | ESC_SENSOR_PROTO_HW4 => simp [getEscSensorData]
        | ESC_SENSOR_PROTO_KISS =>
            by_cases h1 : motorNumber < N
            · simp [getEscSensorData, h1, ESC_SENSOR_COMBINED]
            · by_cases h2 : motorNumber = ESC_SENSOR_COMBINED
              · by_cases h3 : needsUpdate ∧ 0 < N
                · simp [getEscSensorData, h1, h2, h3, ESC_SENSOR_COMBINED]
                  split <;> simp
                · simp [getEscSensorData, h1, h2, h3, ESC_SENSOR_COMBINED]
                  split <;> simp
              · have h2n : ¬ motorNumber = 255 := by
                  simpa [ESC_SENSOR_COMBINED] using h2
                simp [getEscSensorData, h1, h2n, ESC_SENSOR_COMBINED]
                omega
  · intro hf; subst hf; simp [getEscSensorData]

/-- C4: a complete 19-byte HW4 frame updates telemetry record 0 if and only
if the seven sanity positions pass (`byte4, byte6, byte8 < 4` and
`byte11, byte13, byte15, byte17 < 0xF`): on success record 0 is rewritten
(its age reset to 0) while every other record and the CRC-error counter are
untouched; on any sanity failure the whole state is unchanged except that
the CRC-error counter is incremented by one — in particular no telemetry
field is mutated.  (Holds for every choice of the float conversion
functions.) -/
theorem hw4_sanity_gate (conv : Hw4Conv) (currentTimeUs : Nat)
    (frame : List Nat) (s : Hw4State) :
    (hw4SanityOk frame →
      ((hw4ApplyFrame conv currentTimeUs frame s).escSensorData 0).dataAge = 0 ∧
      (hw4ApplyFrame conv currentTimeUs frame s).totalCrcErrorCount
        = s.totalCrcErrorCount ∧
      (∀ j, j ≠ 0 →
        (hw4ApplyFrame conv currentTimeUs frame s).escSensorData j
          = s.escSensorData j)) ∧
    (¬ hw4SanityOk frame →
      hw4ApplyFrame conv currentTimeUs frame s
        = { s with totalCrcErrorCount := s.totalCrcErrorCount + 1 }) := by
  constructor
  · intro hok
    refine ⟨?_, ?_, ?_⟩
    · simp [hw4ApplyFrame, hok]
    · simp [hw4ApplyFrame, hok]
    · intro j hj; simp [hw4ApplyFrame, hok, hj]
  · intro hbad
    simp [hw4ApplyFrame, hbad]

/-- A concrete HW4 frame: throttle 0, RPM 0, raw current 200, all sanity
bytes within range. -/
def exHw4Frame : List Nat :=
  [0x9B, 0, 0, 1, 0, 0, 0, 40, 0, 0, 0, 2, 10, 0, 200, 4, 30, 5, 40]

/-- A concrete conversion triple for witnesses; `curr` is a nonzero constant
so that forcing the stored current to 0 is observable. -/
def exHw4Conv : Hw4Conv :=
  { volt := fun raw => (raw : Int), curr := fun _ => 9999,
    temp := fun raw => (raw : Int) }

/-- A concrete HW4 decoder state for witnesses. -/
def exHw4State : Hw4State :=
  { escSensorData := escSensorInitData, totalCrcErrorCount := 0,
    dataUpdateUs := 0 }

theorem hw4_sanity_gate_witness :
    ((hw4ApplyFrame exHw4Conv 300000 exHw4Frame exHw4State).escSensorData 0).dataAge
      = 0 :=
  ((hw4_sanity_gate exHw4Conv 300000 exHw4Frame exHw4State).1 (by decide)).1

/-- C6: on every accepted HW4 frame whose decoded raw RPM (bytes 8..10,
big-endian) is below 100 or whose decoded raw throttle (bytes 4..5,
big-endian) is below 50, the current stored into record 0 is 0, whatever
value the current conversion would have produced for the raw current
field. -/
theorem hw4_current_forced_zero (conv : Hw4Conv) (currentTimeUs : Nat)
    (frame : List Nat) (s : Hw4State) (hok : hw4SanityOk frame)
    (hlow : (byteAt frame 8 <<< 16 ||| byteAt frame 9 <<< 8 ||| byteAt frame 10) < 100 ∨
            (byteAt frame 4 <<< 8 ||| byteAt frame 5) < 50) :
    ((hw4ApplyFrame conv currentTimeUs frame s).escSensorData 0).current = 0 := by
  simp [hw4ApplyFrame, hok, hlow]

theorem hw4_current_forced_zero_witness :
    ((hw4ApplyFrame exHw4Conv 300000 exHw4Frame exHw4State).escSensorData 0).current
      = 0 :=
  hw4_current_forced_zero exHw4Conv 300000 exHw4Frame exHw4State (by decide)
    (by decide)

theorem byteAt_append_left (p q : List Nat) (i : Nat) (h : i < p.length) :
    byteAt (p ++ q) i = byteAt p i := by
  induction p generalizing i with
  | nil => simp at h
  | cons b bs ih =>
      cases i with
      | zero => rfl
      | succ n =>
          simp only [List.cons_append, byteAt, List.getD_cons_succ]
          exact ih n (by simpa using h)

theorem byteAt_append_concat (p : List Nat) (c : Nat) :
    byteAt (p ++ [c]) p.length = c := by
  induction p with
  | nil => rfl
  | cons b bs ih => simpa only [List.cons_append, byteAt, List.getD_cons_succ,
      List.length_cons] using ih

theorem calculateCrc8_succ (Buf : List Nat) (n : Nat) :
    calculateCrc8 Buf (n + 1) = updateCrc8 (byteAt Buf n) (calculateCrc8 Buf n) := by
  simp [calculateCrc8, List.range_succ]

theorem calculateCrc8_append (p q : List Nat) (BufLen : Nat)
    (h : BufLen ≤ p.length) :
    calculateCrc8 (p ++ q) BufLen = calculateCrc8 p BufLen := by
  induction BufLen with
  | zero => rfl
  | succ n ih =>
      rw [calculateCrc8_succ, calculateCrc8_succ,
        ih (Nat.le_of_succ_le h),
        byteAt_append_left p q n (Nat.lt_of_lt_of_le (Nat.lt_succ_self n) h)]

theorem xor_one_shiftLeft_ne (c k : Nat) : c ^^^ 1 <<< k ≠ c := by
  intro hEq
  have h0 : c ^^^ (c ^^^ 1 <<< k) = c ^^^ c := congrArg (fun x => c ^^^ x) hEq
  rw [← Nat.xor_assoc, Nat.xor_self, Nat.zero_xor] at h0
  have h1 : (1 <<< k : Nat) = 2 ^ k := Nat.one_shiftLeft k
  have h2 : (2 : Nat) ^ k ≠ 0 := Nat.pos_iff_ne_zero.mp (Nat.pos_pow_of_pos k (by omega))
  exact h2 (h1 ▸ h0)

/-- C1: for a completed 10-byte KISS frame `p ++ [c]` (9 payload bytes and a
checksum byte) whose last byte differs from the CRC-8 (poly 0x07, seed 0) of
the first 9 bytes, `decodeEscFrame` returns `ESC_SENSOR_FRAME_FAILED` and
returns the state unchanged — in particular every field of the selected
motor's stored record is untouched; and for a frame whose last byte equals
that CRC, flipping any single bit of the last byte again yields
`ESC_SENSOR_FRAME_FAILED` with no mutation. -/
theorem kiss_crc_mismatch_no_mutation (s : KissState) (p : List Nat) (c : Nat)
    (hp : p.length = 9) (hbuf : s.telemetryBuffer = p ++ [c])
    (hfull : s.bufferPosition = s.bufferSize) :
    (c ≠ calculateCrc8 p 9 →
      decodeEscFrame s = (.ESC_SENSOR_FRAME_FAILED, s)) ∧
    (∀ b, b < 8 → c = calculateCrc8 p 9 →
      decodeEscFrame { s with telemetryBuffer := p ++ [c ^^^ 1 <<< b] }
        = (.ESC_SENSOR_FRAME_FAILED,
           { s with telemetryBuffer := p ++ [c ^^^ 1 <<< b] })) := by
  have hfc : isFrameComplete s = true := by
    simp [isFrameComplete, hfull]
  have hchk : calculateCrc8 s.telemetryBuffer (TELEMETRY_FRAME_SIZE - 1)
      = calculateCrc8 p 9 := by
    rw [hbuf]
    exact calculateCrc8_append p [c] 9 (by omega)
  have htlm : byteAt s.telemetryBuffer (TELEMETRY_FRAME_SIZE - 1) = c := by
    rw [hbuf, show TELEMETRY_FRAME_SIZE - 1 = p.length by simp [TELEMETRY_FRAME_SIZE, hp]]
    exact byteAt_append_concat p c
  constructor
  · intro hcne
    have hne : calculateCrc8 s.telemetryBuffer (TELEMETRY_FRAME_SIZE - 1)
        ≠ byteAt s.telemetryBuffer (TELEMETRY_FRAME_SIZE - 1) := by
      rw [hchk, htlm]
      exact fun h => hcne h.symm
    simp [decodeEscFrame, hfc, hne]
  · intro b hb hcrc
    have hchk2 : calculateCrc8 (p ++ [c ^^^ 1 <<< b]) (TELEMETRY_FRAME_SIZE - 1)
        = calculateCrc8 p 9 :=
      calculateCrc8_append p [c ^^^ 1 <<< b] 9 (by omega)
    have htlm2 : byteAt (p ++ [c ^^^ 1 <<< b]) (TELEMETRY_FRAME_SIZE - 1)
        = c ^^^ 1 <<< b := by
      rw [show TELEMETRY_FRAME_SIZE - 1 = p.length by simp [TELEMETRY_FRAME_SIZE, hp]]
      exact byteAt_append_concat p (c ^^^ 1 <<< b)
    have hne : calculateCrc8 (p ++ [c ^^^ 1 <<< b]) (TELEMETRY_FRAME_SIZE - 1)
        ≠ byteAt (p ++ [c ^^^ 1 <<< b]) (TELEMETRY_FRAME_SIZE - 1) := by
      rw [hchk2, htlm2, ← hcrc]
      exact fun h => xor_one_shiftLeft_ne c b h.symm
    have hfc2 : isFrameComplete { s with telemetryBuffer := p ++ [c ^^^ 1 <<< b] } = true := by
      simp [isFrameComplete, hfull]
    simp [decodeEscFrame, hfc2, hne]

/-- The KISS example frame of spec §8: payload `[10,0,220,0,5,0,10,1,244]`,
whose CRC-8 is 13. -/
def exPayload : List Nat := [10, 0, 220, 0, 5, 0, 10, 1, 244]

/-- A completed receive buffer holding the example payload plus its correct
checksum byte. -/
def exFrameState : KissState :=
  { kissInitState (fun _ => ESC_DATA_INVALID) with
      telemetryBuffer := exPayload ++ [13]
      bufferPosition := 10
      bufferSize := 10 }

set_option maxRecDepth 4000 in
theorem kiss_crc_mismatch_no_mutation_witness :
    decodeEscFrame { exFrameState with telemetryBuffer := exPayload ++ [12] }
      = (.ESC_SENSOR_FRAME_FAILED,
         { exFrameState with telemetryBuffer := exPayload ++ [12] }) :=
  (kiss_crc_mismatch_no_mutation
    { exFrameState with telemetryBuffer := exPayload ++ [12] }
    exPayload 12 (by decide) rfl rfl).1 (by decide)

/-- C5: for a completed 10-byte KISS frame `p ++ [c]` whose last byte equals
the CRC-8 of the first 9 bytes, `decodeEscFrame` returns
`ESC_SENSOR_FRAME_COMPLETE`, writes the current motor's record exactly as
temperature = byte 0, voltage = bytes 1,2 big-endian, current = bytes 3,4,
consumption = bytes 5,6, rpm = bytes 7,8, with `dataAge` reset to 0, leaves
every other motor's record unchanged, and sets the combined-aggregate dirty
flag; if the buffer is not yet full it returns `ESC_SENSOR_FRAME_PENDING`
with the state unchanged. -/
theorem kiss_frame_decode_fields (s : KissState) (p : List Nat) (c : Nat)
    (hp : p.length = 9) (hbuf : s.telemetryBuffer = p ++ [c]) :
    (s.bufferPosition = s.bufferSize → c = calculateCrc8 p 9 →
      (decodeEscFrame s).1 = .ESC_SENSOR_FRAME_COMPLETE ∧
      (decodeEscFrame s).2.escSensorData s.escSensorMotor
        = { dataAge := 0
            temperature := (byteAt p 0 : Int)
            voltage := ((byteAt p 1 <<< 8 ||| byteAt p 2 : Nat) : Int)
            current := ((byteAt p 3 <<< 8 ||| byteAt p 4 : Nat) : Int)
            consumption := ((byteAt p 5 <<< 8 ||| byteAt p 6 : Nat) : Int)
            rpm := byteAt p 7 <<< 8 ||| byteAt p 8 } ∧
      (∀ j, j ≠ s.escSensorMotor →
        (decodeEscFrame s).2.escSensorData j = s.escSensorData j) ∧
      (decodeEscFrame s).2.combinedDataNeedsUpdate = true) ∧
    (s.bufferPosition ≠ s.bufferSize →
      decodeEscFrame s = (.ESC_SENSOR_FRAME_PENDING, s)) := by
  constructor
  · intro hfull hcrc
    have hfc : isFrameComplete s = true := by simp [isFrameComplete, hfull]
    have hchk : calculateCrc8 s.telemetryBuffer (TELEMETRY_FRAME_SIZE - 1)
        = byteAt s.telemetryBuffer (TELEMETRY_FRAME_SIZE - 1) := by
      have h9 : TELEMETRY_FRAME_SIZE - 1 = 9 := rfl
      have hby : byteAt (p ++ [c]) 9 = c := by
        rw [← hp]; exact byteAt_append_concat p c
      rw [hbuf, h9, calculateCrc8_append p [c] 9 (by omega), hby, hcrc]
    have hbytes : ∀ i, i < 9 → byteAt s.telemetryBuffer i = byteAt p i := by
      intro i hi
      rw [hbuf]
      exact byteAt_append_left p [c] i (by omega)
    refine ⟨?_, ?_, ?_, ?_⟩
    · simp [decodeEscFrame, hfc, hchk]
    · simp only [decodeEscFrame, hfc, hchk]
      simp only [Bool.not_true, if_pos, if_neg, Bool.false_eq_true, not_false_eq_true,
        if_true, if_false]
      simp [hbytes 0 (by omega), hbytes 1 (by omega), hbytes 2 (by omega),
        hbytes 3 (by omega), hbytes 4 (by omega), hbytes 5 (by omega),
        hbytes 6 (by omega), hbytes 7 (by omega), hbytes 8 (by omega)]
    · intro j hj
      simp [decodeEscFrame, hfc, hchk, hj]
    · simp [decodeEscFrame, hfc, hchk]
  · intro hne
    have hfc : isFrameComplete s = false := by
      simp [isFrameComplete, hne]
    simp [decodeEscFrame, hfc]

set_option maxRecDepth 4000 in
theorem kiss_frame_decode_fields_witness :
    (decodeEscFrame exFrameState).2.escSensorData exFrameState.escSensorMotor
      = { dataAge := 0, temperature := 10, voltage := 220, current := 5,
          consumption := 10, rpm := 500 } := by
  have h := ((kiss_frame_decode_fields exFrameState exPayload 13
    (by decide) rfl).1 rfl (by decide)).2.1
  rw [h]
  decide

theorem runHW4Stream_skipAll (d : List Nat) (s : Hw4ParserState)
    (hs : s.skipBytes = d.length) :
    runHW4Stream d s = ({ s with skipBytes := 0 }, []) := by
  induction d generalizing s with
  | nil =>
      simp only [List.length_nil] at hs
      simp only [runHW4Stream]
      rw [← hs]
  | cons b bs ih =>
      have hpos : s.skipBytes > 0 := by simp [hs]
      have hstep : processHW4TelemetryStream b s
          = (false, { s with skipBytes := s.skipBytes - 1 }) := by
        simp [processHW4TelemetryStream, hpos]
      have hs2 : ({ s with skipBytes := s.skipBytes - 1 } : Hw4ParserState).skipBytes
          = bs.length := by simp [hs]
      simp only [runHW4Stream, hstep]
      rw [ih _ hs2]
      simp

theorem runHW4Stream_fill (q : List Nat) (s : Hw4ParserState) (pref : List Nat)
    (hskip : s.skipBytes = 0) (hpos : 0 < s.bytesRead) (hr : s.bytesRead < 19)
    (hlen : s.bytesRead + q.length = 19)
    (hq : s.bytesRead = 1 → byteAt q 0 ≠ 0x9B)
    (hpref : (List.range s.bytesRead).map s.hwData = pref) :
    (runHW4Stream q s).2 = [pref ++ q] ∧
    (runHW4Stream q s).1.bytesRead = 0 ∧
    (runHW4Stream q s).1.skipBytes = 0 := by
  induction q generalizing s pref with
  | nil => simp at hlen; omega
  | cons b bs ih =>
      have hlen2 : s.bytesRead + bs.length + 1 = 19 := by
        simp only [List.length_cons] at hlen
        omega
      have hne0 : s.bytesRead ≠ 0 := Nat.pos_iff_ne_zero.mp hpos
      have hnot1 : ¬ (s.bytesRead = 1 ∧ b = 0x9B) := by
        rintro ⟨h1, h2⟩
        exact hq h1 h2
      have hpref2 : (List.range (s.bytesRead + 1)).map
          (fun j => if j = s.bytesRead then b else s.hwData j) = pref ++ [b] := by
        rw [List.range_succ, List.map_append]
        congr 1
        · rw [← hpref]
          apply List.map_congr_left
          intro j hj
          have hjlt : j < s.bytesRead := List.mem_range.mp hj
          simp [Nat.ne_of_lt hjlt]
        · simp
      by_cases h18 : s.bytesRead + 1 = 19
      · have hbs : bs = [] := by
          have hl0 : bs.length = 0 := by omega
          exact List.eq_nil_of_length_eq_zero hl0
        subst hbs
        have hstep : processHW4TelemetryStream b s
            = (true, { s with
                hwData := fun j => if j = s.bytesRead then b else s.hwData j
                bytesRead := 0 }) := by
          simp [processHW4TelemetryStream, hskip, hne0, hnot1, hpos, h18]
        refine ⟨?_, ?_, ?_⟩
        · show (runHW4Stream [b] s).2 = [pref ++ [b]]
          simp only [runHW4Stream, hstep]
          simp only [if_pos, List.append_nil]
          rw [← h18, hpref2]
        · show (runHW4Stream [b] s).1.bytesRead = 0
          simp only [runHW4Stream, hstep]
        · show (runHW4Stream [b] s).1.skipBytes = 0
          simp only [runHW4Stream, hstep]
          exact hskip
      · have hstep : processHW4TelemetryStream b s
            = (false, { s with
                hwData := fun j => if j = s.bytesRead then b else s.hwData j
                bytesRead := s.bytesRead + 1 }) := by
          simp [processHW4TelemetryStream, hskip, hne0, hnot1, hpos, h18]
        have hres := ih { s with
            hwData := fun j => if j = s.bytesRead then b else s.hwData j
            bytesRead := s.bytesRead + 1 } (pref ++ [b]) hskip (Nat.succ_pos _)
          (by show s.bytesRead + 1 < 19; omega)
          (by show s.bytesRead + 1 + bs.length = 19; omega)
          (fun h => absurd h (by show ¬ s.bytesRead + 1 = 1; omega)) hpref2
        refine ⟨?_, ?_, ?_⟩
        · simp only [runHW4Stream, hstep]
          simp only [Bool.false_eq_true, if_false, List.nil_append]
          rw [hres.1]
          simp
        · simp only [runHW4Stream, hstep]
          exact hres.2.1
        · simp only [runHW4Stream, hstep]
          exact hres.2.2

theorem runHW4Stream_append (xs ys : List Nat) (s : Hw4ParserState) :
    runHW4Stream (xs ++ ys) s
      = ((runHW4Stream ys (runHW4Stream xs s).1).1,
         (runHW4Stream xs s).2 ++ (runHW4Stream ys (runHW4Stream xs s).1).2) := by
  induction xs generalizing s with
  | nil => simp [runHW4Stream]
  | cons x xs ih =>
      simp only [List.cons_append, runHW4Stream, List.append_eq]
      rw [ih]
      simp [List.append_assoc]

/-- C3: feeding the HW4 synchronizer, from an in-sync idle state
(`skipBytes = 0`, empty buffer), the bytes
`[0x9B, 0x9B] ++ d ++ [0x9B] ++ p` with `d` 11 arbitrary bytes and `p` 18
payload bytes (valid payload: its first byte is not the sync mark 0x9B)
discards the two sync bytes and the 11 skipped bytes and assembles exactly
one complete 19-byte frame, `0x9B :: p`, ending back in the idle state; and
the per-byte rules hold for every state: decrement-and-discard while
`skipBytes > 0`, accept 0x9B as first byte into an empty buffer, reset and
set `skipBytes = 11` on a second consecutive 0x9B with exactly one byte
stored, append while bytes are stored, and report a complete frame and
reset the buffer when the 19th byte arrives. -/
theorem hw4_stream_resync (d p : List Nat) (s : Hw4ParserState)
    (hd : d.length = 11) (hp : p.length = 18) (hp0 : byteAt p 0 ≠ 0x9B)
    (hskip : s.skipBytes = 0) (hread : s.bytesRead = 0) :
    ((runHW4Stream (0x9B :: 0x9B :: (d ++ 0x9B :: p)) s).2 = [0x9B :: p]) ∧
    ((runHW4Stream (0x9B :: 0x9B :: (d ++ 0x9B :: p)) s).1.bytesRead = 0) ∧
    ((runHW4Stream (0x9B :: 0x9B :: (d ++ 0x9B :: p)) s).1.skipBytes = 0) ∧
    (∀ b : Nat, ∀ t : Hw4ParserState, 0 < t.skipBytes →
      processHW4TelemetryStream b t
        = (false, { t with skipBytes := t.skipBytes - 1 })) ∧
    (∀ t : Hw4ParserState, t.skipBytes = 0 → t.bytesRead = 0 →
      processHW4TelemetryStream 0x9B t
        = (false, { t with
            hwData := fun j => if j = t.bytesRead then 0x9B else t.hwData j
            bytesRead := t.bytesRead + 1 })) ∧
    (∀ t : Hw4ParserState, t.skipBytes = 0 → t.bytesRead = 1 →
      processHW4TelemetryStream 0x9B t
        = (false, { t with bytesRead := 0, skipBytes := 11 })) ∧
    (∀ b : Nat, ∀ t : Hw4ParserState, t.skipBytes = 0 → 0 < t.bytesRead →
      t.bytesRead + 1 ≠ 19 → (t.bytesRead = 1 → b ≠ 0x9B) →
      processHW4TelemetryStream b t
        = (false, { t with
            hwData := fun j => if j = t.bytesRead then b else t.hwData j
            bytesRead := t.bytesRead + 1 })) ∧
    (∀ b : Nat, ∀ t : Hw4ParserState, t.skipBytes = 0 → t.bytesRead = 18 →
      processHW4TelemetryStream b t
        = (true, { t with
            hwData := fun j => if j = t.bytesRead then b else t.hwData j
            bytesRead := 0 })) := by
  have step1 : processHW4TelemetryStream 0x9B s
      = (false, { s with
          hwData := fun j => if j = 0 then 0x9B else s.hwData j
          bytesRead := 1 }) := by
    simp [processHW4TelemetryStream, hskip, hread]
  have step2 : processHW4TelemetryStream 0x9B
      ({ s with
          hwData := fun j => if j = 0 then 0x9B else s.hwData j
          bytesRead := 1 } : Hw4ParserState)
      = (false, { s with
          hwData := fun j => if j = 0 then 0x9B else s.hwData j
          bytesRead := 0
          skipBytes := 11 }) := by
    simp [processHW4TelemetryStream, hskip]
  have step3 : runHW4Stream d
      ({ s with
          hwData := fun j => if j = 0 then 0x9B else s.hwData j
          bytesRead := 0
          skipBytes := 11 } : Hw4ParserState)
      = ({ s with
          hwData := fun j => if j = 0 then 0x9B else s.hwData j
          bytesRead := 0
          skipBytes := 0 }, []) := by
    exact runHW4Stream_skipAll d _ (by simp [hd])
  have step4 : processHW4TelemetryStream 0x9B
      ({ s with
          hwData := fun j => if j = 0 then 0x9B else s.hwData j
          bytesRead := 0
          skipBytes := 0 } : Hw4ParserState)
      = (false, { s with
          hwData := fun j => if j = 0 then 0x9B
            else if j = 0 then 0x9B else s.hwData j
          bytesRead := 1
          skipBytes := 0 }) := by
    simp [processHW4TelemetryStream]
  have hfill := runHW4Stream_fill p
    ({ s with
        hwData := fun j => if j = 0 then 0x9B
          else if j = 0 then 0x9B else s.hwData j
        bytesRead := 1
        skipBytes := 0 } : Hw4ParserState) [0x9B]
    rfl (by norm_num) (by norm_num) (by rw [hp]) (fun h => hp0)
    (by rfl)
  have hchain : runHW4Stream (0x9B :: 0x9B :: (d ++ 0x9B :: p)) s
      = runHW4Stream p
          ({ s with
              hwData := fun j => if j = 0 then 0x9B
                else if j = 0 then 0x9B else s.hwData j
              bytesRead := 1
              skipBytes := 0 } : Hw4ParserState) := by
    simp only [runHW4Stream, step1, step2]
    rw [runHW4Stream_append, step3]
    simp only [runHW4Stream, step4]
    simp
  refine ⟨?_, ?_, ?_, ?_, ?_, ?_, ?_, ?_⟩
  · rw [hchain]; exact hfill.1
  · rw [hchain]; exact hfill.2.1
  · rw [hchain]; exact hfill.2.2
  · intro b t ht
    simp [processHW4TelemetryStream, ht]
  · intro t ht0 ht1
    simp [processHW4TelemetryStream, ht0, ht1]
  · intro t ht0 ht1
    simp [processHW4TelemetryStream, ht0, ht1]
  · intro b t ht0 htpos ht19 htb
    have htne0 : t.bytesRead ≠ 0 := Nat.pos_iff_ne_zero.mp htpos
    have htnot1 : ¬ (t.bytesRead = 1 ∧ b = 0x9B) := by
      rintro ⟨h1, h2⟩
      exact htb h1 h2
    simp [processHW4TelemetryStream, ht0, htne0, htnot1, htpos, ht19]
  · intro b t ht0 ht18
    simp [processHW4TelemetryStream, ht0, ht18]

/-- Concrete 11 skipped bytes for the resync witness. -/
def exSkipBytes : List Nat := [1, 2, 3, 4, 5, 6, 7, 8, 9, 10, 11]

/-- Concrete 18 payload bytes for the resync witness. -/
def exHw4Payload : List Nat :=
  [0, 0, 1, 0, 30, 0, 40, 0, 1, 50, 2, 10, 3, 20, 4, 30, 5, 40]

/-- The idle HW4 parser state (zeroed statics). -/
def hw4IdleState : Hw4ParserState :=
  { hwData := fun _ => 0, skipBytes := 0, bytesRead := 0 }

theorem hw4_stream_resync_witness :
    (runHW4Stream (0x9B :: 0x9B :: (exSkipBytes ++ 0x9B :: exHw4Payload))
        hw4IdleState).2
      = [0x9B :: exHw4Payload] :=
  (hw4_stream_resync exSkipBytes exHw4Payload hw4IdleState (by decide) (by decide)
    (by decide) rfl rfl).1

def cntTimeouts (N i k : Nat) : Nat :=
  ((List.range k).filter (fun j => j % N = i)).length

theorem cntTimeouts_succ (N i k : Nat) :
    cntTimeouts N i (k + 1)
      = cntTimeouts N i k + if k % N = i then 1 else 0 := by
  by_cases h : k % N = i <;>
    simp [cntTimeouts, List.range_succ, List.filter_append, h]

def kissTimeline (N : Nat) (a : Nat → Nat) (k : Nat) : KissState :=
  { telemetryBuffer := List.replicate TELEMETRY_FRAME_SIZE 0
    bufferPosition := 0
    bufferSize := TELEMETRY_FRAME_SIZE
    escSensorData := fun i =>
      { zeroEscSensorData with
          dataAge := min (a i + cntTimeouts N i k) ESC_DATA_INVALID }
    escSensorTriggerState := .ESC_SENSOR_TRIGGER_PENDING
    escTriggerTimestamp := 5000 + 100 * k
    escSensorMotor := k % N
    combinedDataNeedsUpdate := true
    totalTimeoutCount := k
    totalCrcErrorCount := 0
    reqLog := (List.range (k + 1)).map (fun j => j % N) }

theorem mod_succ_sel (N k : Nat) (hN : 0 < N) :
    (if k % N + 1 = N then 0 else k % N + 1) = (k + 1) % N := by
  have h1 : k % N < N := Nat.mod_lt _ hN
  have hqr : N * (k / N) + k % N = k := Nat.div_add_mod k N
  set q := k / N with hq
  set r := k % N with hr
  by_cases h : r + 1 = N
  · rw [if_pos h]
    have h2 : k + 1 = N * (q + 1) := by
      rw [Nat.mul_succ]
      omega
    rw [h2, Nat.mul_mod_right]
  · rw [if_neg h]
    have h3 : k + 1 = (r + 1) + N * q := by omega
    conv_rhs => rw [h3, Nat.add_mul_mod_self_left]
    rw [Nat.mod_eq_of_lt (by omega)]

theorem kissStep_timeout (N : Nat) (hN : 0 < N) (a : Nat → Nat) (k : Nat)
    (ha : ∀ i, a i ≤ ESC_DATA_INVALID) :
    kissSensorProcess N (1000 * (5100 + 100 * k)) (kissTimeline N a k)
      = kissTimeline N a (k + 1) := by
  have hdiv : 1000 * (5100 + 100 * k) / 1000 = 5100 + 100 * k :=
    Nat.mul_div_cancel_left _ (by norm_num)
  have hnotlt : ¬ (1000 * (5100 + 100 * k) / 1000
      < (kissTimeline N a k).escTriggerTimestamp + ESC_REQUEST_TIMEOUT) := by
    rw [hdiv]
    simp only [kissTimeline, ESC_REQUEST_TIMEOUT]
    omega
  have hage : increaseDataAge (kissTimeline N a k)
      = { kissTimeline N a k with
          escSensorData := fun i =>
            { zeroEscSensorData with
                dataAge := min (a i + cntTimeouts N i (k + 1)) ESC_DATA_INVALID } } := by
    by_cases hlt : ((kissTimeline N a k).escSensorData
        (kissTimeline N a k).escSensorMotor).dataAge < ESC_DATA_INVALID
    · simp only [increaseDataAge, if_pos hlt]
      simp only [kissTimeline] at hlt
      congr 1
      funext i
      by_cases hi : i = k % N
      · subst hi
        simp only [kissTimeline]
        simp only [if_true]
        congr 1
        rw [cntTimeouts_succ, if_pos rfl]
        omega
      · simp only [kissTimeline]
        rw [if_neg hi]
        congr 1
        rw [cntTimeouts_succ, if_neg (fun h => hi h.symm)]
        omega
    · simp only [increaseDataAge, if_neg hlt]
      simp only [kissTimeline] at hlt
      apply KissState.ext <;> try rfl
      funext i
      simp only [kissTimeline]
      by_cases hi : i = k % N
      · subst hi
        congr 1
        rw [cntTimeouts_succ, if_pos rfl]
        omega
      · congr 1
        rw [cntTimeouts_succ, if_neg (fun h => hi h.symm)]
        omega
  have htr : (kissTimeline N a k).escSensorTriggerState
      = escSensorTriggerState_t.ESC_SENSOR_TRIGGER_PENDING := rfl
  simp only [kissSensorProcess, htr]
  rw [if_neg hnotlt, hage]
  apply KissState.ext <;> try rfl
  case escTriggerTimestamp =>
    show 1000 * (5100 + 100 * k) / 1000 = 5000 + 100 * (k + 1)
    rw [hdiv]
    ring
  case escSensorMotor =>
    show (if k % N + 1 = N then 0 else k % N + 1) = (k + 1) % N
    exact mod_succ_sel N k hN
  case reqLog =>
    show (List.range (k + 1)).map (fun j => j % N)
          ++ [if k % N + 1 = N then 0 else k % N + 1]
        = (List.range (k + 1 + 1)).map (fun j => j % N)
    rw [mod_succ_sel N k hN]
    simp [List.range_succ]

theorem kissRun_succ (N : Nat) (a : Nat → Nat) (t : Nat) :
    kissRun N a (t + 1) = kissSensorProcess N (1000 * t) (kissRun N a t) := rfl

theorem kissStep_startup_early (N t : Nat) (s : KissState)
    (hs : s.escSensorTriggerState = .ESC_SENSOR_TRIGGER_STARTUP)
    (ht : t / 1000 < ESC_BOOTTIME) :
    kissSensorProcess N t s = s := by
  simp only [kissSensorProcess, hs]
  rw [if_neg (by omega)]

theorem kissRun_boot (N : Nat) (a : Nat → Nat) (t : Nat) (ht : t ≤ ESC_BOOTTIME) :
    kissRun N a t = kissInitState a := by
  induction t with
  | zero => rfl
  | succ n ih =>
      rw [kissRun_succ, ih (by omega)]
      apply kissStep_startup_early
      · rfl
      · rw [Nat.mul_div_cancel_left n (by norm_num)]
        omega

theorem kissRun_first_request (N : Nat) (a : Nat → Nat)
    (ha : ∀ i, a i ≤ ESC_DATA_INVALID) :
    kissRun N a (ESC_BOOTTIME + 1) = kissTimeline N a 0 := by
  rw [kissRun_succ, kissRun_boot N a ESC_BOOTTIME (Nat.le_refl _)]
  have hdiv : 1000 * ESC_BOOTTIME / 1000 = ESC_BOOTTIME :=
    Nat.mul_div_cancel_left _ (by norm_num)
  have htr : (kissInitState a).escSensorTriggerState
      = escSensorTriggerState_t.ESC_SENSOR_TRIGGER_STARTUP := rfl
  simp only [kissSensorProcess, htr]
  rw [if_pos (by rw [hdiv])]
  apply KissState.ext <;> try rfl
  case escSensorData =>
    funext i
    simp only [kissInitState, kissTimeline, setRequest]
    congr 1
    have h0 : cntTimeouts N i 0 = 0 := rfl
    rw [h0]
    have hai := ha i
    omega

theorem kissRun_stretch (N : Nat) (a : Nat → Nat) (k j : Nat) (hj : j ≤ 99)
    (hbase : kissRun N a (5001 + 100 * k) = kissTimeline N a k) :
    kissRun N a (5001 + 100 * k + j) = kissTimeline N a k := by
  induction j with
  | zero => simpa using hbase
  | succ n ih =>
      have heq : 5001 + 100 * k + (n + 1) = (5001 + 100 * k + n) + 1 := by omega
      rw [heq, kissRun_succ, ih (by omega)]
      have htr : (kissTimeline N a k).escSensorTriggerState
          = escSensorTriggerState_t.ESC_SENSOR_TRIGGER_PENDING := rfl
      have hfc : isFrameComplete (kissTimeline N a k) = false := by
        simp [isFrameComplete, kissTimeline, TELEMETRY_FRAME_SIZE]
      have hdec : decodeEscFrame (kissTimeline N a k)
          = (.ESC_SENSOR_FRAME_PENDING, kissTimeline N a k) := by
        simp [decodeEscFrame, hfc]
      have hts : 1000 * (5001 + 100 * k + n) / 1000
          < (kissTimeline N a k).escTriggerTimestamp + ESC_REQUEST_TIMEOUT := by
        rw [Nat.mul_div_cancel_left _ (by norm_num)]
        simp only [kissTimeline, ESC_REQUEST_TIMEOUT]
        omega
      simp only [kissSensorProcess, htr]
      rw [if_pos hts, hdec]

theorem kissRun_timeline (N : Nat) (hN : 0 < N) (a : Nat → Nat)
    (ha : ∀ i, a i ≤ ESC_DATA_INVALID) (k : Nat) :
    kissRun N a (5001 + 100 * k) = kissTimeline N a k := by
  induction k with
  | zero =>
      have h := kissRun_first_request N a ha
      simpa [ESC_BOOTTIME] using h
  | succ m ih =>
      have hstretch := kissRun_stretch N a m 99 (by omega) ih
      have heq : 5001 + 100 * (m + 1) = (5001 + 100 * m + 99) + 1 := by omega
      rw [heq, kissRun_succ, hstretch]
      have heq2 : 1000 * (5001 + 100 * m + 99) = 1000 * (5100 + 100 * m) := by ring
      rw [heq2, kissStep_timeout N hN a m ha]

/-- C2: for the KISS scheduler started in `Startup` at t = 0 (ticked at
1 kHz, i.e. once per millisecond) with `N ≥ 1` motors and a serial line on
which no bytes ever arrive (so no frame ever completes): no telemetry
request is issued at any tick before t = 5000 ms (`ESC_BOOTTIME`); the tick
at t = 5000 ms issues the first request, for motor 0; and after the tick at
t = 5000 + 100·k ms exactly k timeouts have fired
(`totalTimeoutCount = k`), the current motor is `k % N`, the request log is
the round-robin sequence `[0 % N, 1 % N, …, k % N]`, and each motor's
data age has been bumped, saturating at `ESC_DATA_INVALID`, once per
timeout that hit it (`cntTimeouts` counts them) — so the scheduler never
stalls on one motor.  Initial ages are generalised to any assignment
`a ≤ ESC_DATA_INVALID`; `escSensorInit` uses `a = fun i => ESC_DATA_INVALID`. -/
theorem kiss_scheduler_timeline (N : Nat) (hN : 0 < N) (a : Nat → Nat)
    (ha : ∀ i, a i ≤ ESC_DATA_INVALID) :
    (∀ t, t ≤ 5000 → (kissRun N a t).reqLog = []) ∧
    ((kissRun N a 5001).reqLog = [0]) ∧
    ((kissRun N a 5001).escSensorMotor = 0) ∧
    (∀ k,
      (kissRun N a (5001 + 100 * k)).totalTimeoutCount = k ∧
      (kissRun N a (5001 + 100 * k)).escSensorMotor = k % N ∧
      (kissRun N a (5001 + 100 * k)).reqLog
        = (List.range (k + 1)).map (fun j => j % N) ∧
      (∀ i, ((kissRun N a (5001 + 100 * k)).escSensorData i).dataAge
        = min (a i + cntTimeouts N i k) ESC_DATA_INVALID)) := by
  have hboot : ∀ t, t ≤ 5000 → kissRun N a t = kissInitState a := by
    intro t ht
    exact kissRun_boot N a t (by simpa [ESC_BOOTTIME] using ht)
  refine ⟨?_, ?_, ?_, ?_⟩
  · intro t ht
    rw [hboot t ht]
    rfl
  · have h := kissRun_timeline N hN a ha 0
    simp only [Nat.mul_zero, Nat.add_zero] at h
    rw [h]
    rfl
  · have h := kissRun_timeline N hN a ha 0
    simp only [Nat.mul_zero, Nat.add_zero] at h
    rw [h]
    show 0 % N = 0
    exact Nat.zero_mod N
  · intro k
    rw [kissRun_timeline N hN a ha k]
    exact ⟨rfl, rfl, rfl, fun i => rfl⟩

theorem kiss_scheduler_timeline_witness :
    (kissRun 2 (fun i => ESC_DATA_INVALID) 5001).reqLog = [0] :=
  (kiss_scheduler_timeline 2 (by norm_num) (fun i => ESC_DATA_INVALID)
    (fun i => Nat.le_refl _)).2.1

theorem getEscSensorData_none_iff_witness :
    (getEscSensorData true escSensorProtocol_e.ESC_SENSOR_PROTO_HW4 4
        escSensorInitData zeroEscSensorData true 2).1 = some (escSensorInitData 0) :=
  (getEscSensorData_none_iff true escSensorProtocol_e.ESC_SENSOR_PROTO_HW4 4
    escSensorInitData zeroEscSensorData true 2).2 rfl
